import Mathlib

/-!
Verification of the DNM parameters module (src/dnm/parameters.rs) of
llamapun-rs: the policy layer deciding, per document node, whether its
subtree is entered, replaced by a token, or skipped, together with the
normalization flags, their presets, and the configuration sanity checker.
-/

namespace Llamapun

/-- A read-only document node as visible to this policy layer: a tag name
and zero or more class names (the only node attributes the policy consults). -/
structure RoNode where
  tagName : String
  classNames : List String

/-- From SpecialTagsOption in src/dnm/parameters.rs: specifies how to deal
with a certain tag. -/
inductive SpecialTagsOption where
  /-- Recurse into tag (default behaviour) -/
  | Enter
  /-- Normalize tag, replacing it by some token -/
  | Normalize (s : String)
  /-- Normalize tag, obtain replacement string by function call -/
  | FunctionNormalize (f : RoNode → String)
  /-- Skip tag -/
  | Skip

/-- Model of std HashMap with String keys and SpecialTagsOption values:
an association list in insertion order, keys unique. -/
abbrev StrMap := List (String × SpecialTagsOption)

/-- Model of HashMap::new(). -/
def StrMap.empty : StrMap := []

/-- Model of HashMap::insert: replace the value of an existing key in place,
otherwise add the new binding. -/
def StrMap.insert (m : StrMap) (k : String) (v : SpecialTagsOption) : StrMap :=
  if m.any (fun kv => kv.1 == k) then
    m.map (fun kv => if kv.1 == k then (k, v) else kv)
  else m ++ [(k, v)]

/-- Model of HashMap::get: the value bound to key k, if any. -/
def StrMap.get? (m : StrMap) (k : String) : Option SpecialTagsOption :=
  (m.find? (fun kv => kv.1 == k)).map Prod.snd

/-- From RuntimeParseData in src/dnm/parameters.rs: some temporary data for
the parser; plaintext as a vector of chars plus a whitespace flag. -/
structure RuntimeParseData where
  /-- plaintext is currently terminated by some whitespace -/
  had_whitespace : Bool
  /-- plaintext representation as vector of chars -/
  chars : List Char

/-- From impl Default for RuntimeParseData: skip leading whitespace, empty
char vector. -/
def RuntimeParseData.default : RuntimeParseData :=
  { had_whitespace := true, chars := [] }

/-- From DNMParameters in src/dnm/parameters.rs: parameters for the DNM
generation. -/
structure DNMParameters where
  /-- How to deal with special tags -/
  special_tag_name_options : StrMap
  /-- How to deal with tags with special class names; if both a tag name and
  a tag class match, the tag name rule will be applied -/
  special_tag_class_options : StrMap
  /-- merge sequences of whitespaces into a single space -/
  normalize_white_spaces : Bool
  /-- put spaces before and after tokens -/
  wrap_tokens : Bool
  /-- replace unicode characters by the ascii code representation -/
  normalize_unicode : Bool
  /-- apply the morpha stemmer once to the text nodes -/
  stem_words_once : Bool
  /-- apply the morpha stemmer as often as it changes something -/
  stem_words_full : Bool
  /-- move to lowercase -/
  convert_to_lowercase : Bool
  /-- support mapping plaintext offsets back to the DOM -/
  support_back_mapping : Bool

/-- From impl Default for DNMParameters in src/dnm/parameters.rs. -/
def DNMParameters.default : DNMParameters :=
  { special_tag_name_options := StrMap.empty
    special_tag_class_options := StrMap.empty
    normalize_white_spaces := true
    wrap_tokens := false
    normalize_unicode := false
    stem_words_once := false
    stem_words_full := false
    convert_to_lowercase := false
    support_back_mapping := true }

/-- From DNMParameters::llamapun_normalization in src/dnm/parameters.rs:
normalize in a reasonable way for math documents. -/
def DNMParameters.llamapun_normalization : DNMParameters :=
  let name_options :=
    ((((((StrMap.empty.insert
      "math" (SpecialTagsOption.Normalize "mathformula")).insert
      "cite" (SpecialTagsOption.Normalize "CitationElement")).insert
      "img" SpecialTagsOption.Skip).insert
      "table" SpecialTagsOption.Skip).insert
      "head" SpecialTagsOption.Skip).insert
      "footer" SpecialTagsOption.Skip)
  let class_options :=
    ((((((((((StrMap.empty.insert
      "ltx_equation" (SpecialTagsOption.Normalize "\nmathformula\n")).insert
      "ltx_equationgroup" (SpecialTagsOption.Normalize "\nmathformula\n")).insert
      "ltx_ref" (SpecialTagsOption.Normalize "REF")).insert
      "ltx_authors" SpecialTagsOption.Skip).insert
      "ltx_TOC" SpecialTagsOption.Skip).insert
      "ltx_note_mark" SpecialTagsOption.Skip).insert
      "ltx_note_outer" SpecialTagsOption.Skip).insert
      "ltx_bibliography" SpecialTagsOption.Skip).insert
      "ltx_tag_figure" SpecialTagsOption.Skip).insert
      "ltx_tag_table" SpecialTagsOption.Skip)
  { DNMParameters.default with
    special_tag_name_options := name_options
    special_tag_class_options := class_options
    normalize_white_spaces := false
    wrap_tokens := true
    normalize_unicode := true }

/-- From DNMParameters::check in src/dnm/parameters.rs: prints warnings if
the parameter settings do not make sense. Modelled as a pure function
returning the list of emitted diagnostics, numbered in source order:
1 is the both-stemming-modes warning, 2 the redundant-lowercase warning,
3 the back-mapping-with-stemming warning. -/
def DNMParameters.check (p : DNMParameters) : List Nat :=
  (if p.stem_words_once && p.stem_words_full then [1] else []) ++
  (if (p.stem_words_once || p.stem_words_full) && p.convert_to_lowercase
    then [2] else []) ++
  (if (p.stem_words_once || p.stem_words_full) && p.support_back_mapping
    then [3] else [])

/-- A call to check, seen as taking the configuration by shared reference:
it hands back the configuration unchanged, together with its diagnostics. -/
def DNMParameters.checkRun (p : DNMParameters) : DNMParameters × List Nat :=
  (p, p.check)

/-- Modelled from the spec: the policy resolution
resolve(tagName, classNames) of section 4.1, whose implementation (the
tree-walking extraction engine of the dnm module) is not among the sources;
an exact match in the tag-name table dominates, otherwise the first class
name in caller order with a class-table entry decides, otherwise Enter. -/
def resolve (p : DNMParameters) (tagName : String) (classNames : List String) :
    SpecialTagsOption :=
  match p.special_tag_name_options.get? tagName with
  | some a => a
  | none =>
    match classNames.findSome? (fun c => p.special_tag_class_options.get? c) with
    | some a => a
    | none => SpecialTagsOption.Enter

/-- Helper: findSome? over a list returns none when the function returns
none on every element. -/
theorem findSome?_none_of_all {α β : Type} (f : α → Option β) :
    ∀ l : List α, (∀ c ∈ l, f c = none) → l.findSome? f = none
  | [], _ => rfl
  | x :: xs, h => by
    have hx : f x = none := h x (List.mem_cons_self x xs)
    have ih := findSome?_none_of_all f xs
      (fun c hc => h c (List.mem_cons_of_mem x hc))
    simp [List.findSome?, hx, ih]

/-- C1: if the tag-name table has an entry for the node's tag name, policy
resolution returns that entry's action, whatever the class table holds and
whatever the node's class names are. -/
theorem resolve_name_rule_wins (p : DNMParameters) (t : String)
    (cs : List String) (a : SpecialTagsOption)
    (h : p.special_tag_name_options.get? t = some a) (q : StrMap) :
    resolve { p with special_tag_class_options := q } t cs = a := by
  rcases p with ⟨no, co, b1, b2, b3, b4, b5, b6, b7⟩
  simp only [resolve] at *
  simp [h]

/-- Witness for C1: under the llamapun preset, tag math with class
ltx_equation (whose class rule is Normalize of newline-wrapped mathformula)
resolves to the name rule Normalize mathformula, for any class table. -/
theorem resolve_name_rule_wins_witness :
    DNMParameters.llamapun_normalization.special_tag_name_options.get? "math"
      = some (SpecialTagsOption.Normalize "mathformula")
    ∧ resolve { DNMParameters.llamapun_normalization with
          special_tag_class_options :=
            DNMParameters.llamapun_normalization.special_tag_class_options }
        "math" ["ltx_equation"]
      = SpecialTagsOption.Normalize "mathformula" :=
  ⟨rfl, resolve_name_rule_wins DNMParameters.llamapun_normalization "math"
    ["ltx_equation"] (SpecialTagsOption.Normalize "mathformula") rfl
    DNMParameters.llamapun_normalization.special_tag_class_options⟩

/-- C2: when neither the tag-name table has an entry for the tag name nor
the class table an entry for any of the node's class names, policy
resolution returns Enter. -/
theorem resolve_no_match_enter (p : DNMParameters) (t : String)
    (cs : List String)
    (h1 : p.special_tag_name_options.get? t = none)
    (h2 : ∀ c ∈ cs, p.special_tag_class_options.get? c = none) :
    resolve p t cs = SpecialTagsOption.Enter := by
  have hf := findSome?_none_of_all
    (fun c => p.special_tag_class_options.get? c) cs h2
  simp [resolve, h1, hf]

/-- Witness for C2: under the default configuration (empty tables), tag p
with no class names resolves to Enter. -/
theorem resolve_no_match_enter_witness :
    DNMParameters.default.special_tag_name_options.get? "p" = none
    ∧ resolve DNMParameters.default "p" [] = SpecialTagsOption.Enter :=
  ⟨rfl, resolve_no_match_enter DNMParameters.default "p" [] rfl
    (fun c hc => absurd hc (List.not_mem_nil c))⟩

/-- C3: the default constructor returns exactly whitespace-normalize on,
wrap-tokens off, unicode-normalize off, both stem flags off, lowercase off,
back-mapping on, and both rule tables empty. -/
theorem default_parameter_values :
    DNMParameters.default.normalize_white_spaces = true
    ∧ DNMParameters.default.wrap_tokens = false
    ∧ DNMParameters.default.normalize_unicode = false
    ∧ DNMParameters.default.stem_words_once = false
    ∧ DNMParameters.default.stem_words_full = false
    ∧ DNMParameters.default.convert_to_lowercase = false
    ∧ DNMParameters.default.support_back_mapping = true
    ∧ DNMParameters.default.special_tag_name_options = StrMap.empty
    ∧ DNMParameters.default.special_tag_class_options = StrMap.empty :=
  ⟨rfl, rfl, rfl, rfl, rfl, rfl, rfl, rfl, rfl⟩

/-- C4: the llamapun preset has whitespace-normalize off, wrap-tokens on,
unicode-normalize on, the remaining flags as in the default, a tag-name
table of exactly the six listed entries and a class table of exactly the
ten listed entries. -/
theorem llamapun_normalization_values :
    DNMParameters.llamapun_normalization.normalize_white_spaces = false
    ∧ DNMParameters.llamapun_normalization.wrap_tokens = true
    ∧ DNMParameters.llamapun_normalization.normalize_unicode = true
    ∧ DNMParameters.llamapun_normalization.stem_words_once
        = DNMParameters.default.stem_words_once
    ∧ DNMParameters.llamapun_normalization.stem_words_full
        = DNMParameters.default.stem_words_full
    ∧ DNMParameters.llamapun_normalization.convert_to_lowercase
        = DNMParameters.default.convert_to_lowercase
    ∧ DNMParameters.llamapun_normalization.support_back_mapping
        = DNMParameters.default.support_back_mapping
    ∧ DNMParameters.llamapun_normalization.special_tag_name_options =
      [("math", SpecialTagsOption.Normalize "mathformula"),
       ("cite", SpecialTagsOption.Normalize "CitationElement"),
       ("img", SpecialTagsOption.Skip),
       ("table", SpecialTagsOption.Skip),
       ("head", SpecialTagsOption.Skip),
       ("footer", SpecialTagsOption.Skip)]
    ∧ DNMParameters.llamapun_normalization.special_tag_class_options =
      [("ltx_equation", SpecialTagsOption.Normalize "\nmathformula\n"),
       ("ltx_equationgroup", SpecialTagsOption.Normalize "\nmathformula\n"),
       ("ltx_ref", SpecialTagsOption.Normalize "REF"),
       ("ltx_authors", SpecialTagsOption.Skip),
       ("ltx_TOC", SpecialTagsOption.Skip),
       ("ltx_note_mark", SpecialTagsOption.Skip),
       ("ltx_note_outer", SpecialTagsOption.Skip),
       ("ltx_bibliography", SpecialTagsOption.Skip),
       ("ltx_tag_figure", SpecialTagsOption.Skip),
       ("ltx_tag_table", SpecialTagsOption.Skip)] :=
  ⟨rfl, rfl, rfl, rfl, rfl, rfl, rfl, rfl, rfl⟩

/-- C5: for every configuration, check emits diagnostic 1 iff both stem
flags are set, diagnostic 2 iff some stem flag and lowercase are set,
diagnostic 3 iff some stem flag and back-mapping are set; the three rules
are independent. -/
theorem check_diagnostics_iff (p : DNMParameters) :
    ((1 ∈ p.check) ↔ (p.stem_words_once = true ∧ p.stem_words_full = true))
    ∧ ((2 ∈ p.check) ↔ ((p.stem_words_once = true ∨ p.stem_words_full = true)
        ∧ p.convert_to_lowercase = true))
    ∧ ((3 ∈ p.check) ↔ ((p.stem_words_once = true ∨ p.stem_words_full = true)
        ∧ p.support_back_mapping = true)) := by
  rcases p with ⟨no, co, b1, b2, b3, so, sf, lc, bm⟩
  cases so <;> cases sf <;> cases lc <;> cases bm <;>
    simp [DNMParameters.check]

/-- Witness for C5: the all-set stemming configuration emits all three
diagnostics. -/
theorem check_diagnostics_iff_witness :
    (1 ∈ DNMParameters.check { DNMParameters.default with
        stem_words_once := true, stem_words_full := true,
        convert_to_lowercase := true })
    ∧ (2 ∈ DNMParameters.check { DNMParameters.default with
        stem_words_once := true, stem_words_full := true,
        convert_to_lowercase := true })
    ∧ (3 ∈ DNMParameters.check { DNMParameters.default with
        stem_words_once := true, stem_words_full := true,
        convert_to_lowercase := true }) := by
  refine ⟨?_, ?_, ?_⟩
  · exact (check_diagnostics_iff _).1.mpr ⟨rfl, rfl⟩
  · exact (check_diagnostics_iff _).2.1.mpr ⟨Or.inl rfl, rfl⟩
  · exact (check_diagnostics_iff _).2.2.mpr ⟨Or.inl rfl, rfl⟩

/-- C6: check emits no diagnostics on the default configuration and none on
the llamapun preset. -/
theorem check_presets_clean :
    DNMParameters.default.check = []
    ∧ DNMParameters.llamapun_normalization.check = [] :=
  ⟨rfl, rfl⟩

/-- C7: check is deterministic and idempotent: a call hands the
configuration back unchanged, and a second call on that configuration
yields the identical diagnostic list. -/
theorem check_idempotent (p : DNMParameters) :
    p.checkRun.1 = p ∧ (p.checkRun.1).checkRun.2 = p.checkRun.2 :=
  ⟨rfl, rfl⟩

/-- C8: the initial RuntimeParseData has the whitespace flag true (so
leading document whitespace is suppressed) and the accumulated character
sequence empty. -/
theorem runtime_parse_data_initial :
    RuntimeParseData.default.had_whitespace = true
    ∧ RuntimeParseData.default.chars = [] :=
  ⟨rfl, rfl⟩

/-- C9: every operation of this core is total and non-failing: check and
resolve return a value on every input, construction accepts every flag
combination, and both presets and the initial parse state are defined
values. -/
theorem core_operations_total :
    (∀ p : DNMParameters, ∃ ds : List Nat, p.check = ds)
    ∧ (∀ (p : DNMParameters) (t : String) (cs : List String),
        ∃ a : SpecialTagsOption, resolve p t cs = a)
    ∧ (∀ (no co : StrMap) (b1 b2 b3 b4 b5 b6 b7 : Bool),
        ∃ p : DNMParameters,
          p = DNMParameters.mk no co b1 b2 b3 b4 b5 b6 b7)
    ∧ (∃ p : DNMParameters, DNMParameters.default = p)
    ∧ (∃ p : DNMParameters, DNMParameters.llamapun_normalization = p)
    ∧ (∃ r : RuntimeParseData, RuntimeParseData.default = r) :=
  ⟨fun p => ⟨p.check, rfl⟩,
   fun p t cs => ⟨resolve p t cs, rfl⟩,
   fun no co b1 b2 b3 b4 b5 b6 b7 =>
     ⟨DNMParameters.mk no co b1 b2 b3 b4 b5 b6 b7, rfl⟩,
   ⟨DNMParameters.default, rfl⟩,
   ⟨DNMParameters.llamapun_normalization, rfl⟩,
   ⟨RuntimeParseData.default, rfl⟩⟩

/-- C10: the diagnostics of check depend only on the two stem flags, the
lowercase flag and the back-mapping flag: two configurations agreeing on
those four produce identical diagnostics, whatever their rule tables and
remaining flags. -/
theorem check_depends_only_on_four_flags (p q : DNMParameters)
    (h1 : p.stem_words_once = q.stem_words_once)
    (h2 : p.stem_words_full = q.stem_words_full)
    (h3 : p.convert_to_lowercase = q.convert_to_lowercase)
    (h4 : p.support_back_mapping = q.support_back_mapping) :
    p.check = q.check := by
  simp [DNMParameters.check, h1, h2, h3, h4]

/-- Witness for C10: the default configuration and the llamapun preset
agree on the four flags and get the same diagnostics, although their rule
tables and remaining flags differ. -/
theorem check_depends_only_on_four_flags_witness :
    (DNMParameters.default.stem_words_once
      = DNMParameters.llamapun_normalization.stem_words_once)
    ∧ (DNMParameters.default.stem_words_full
      = DNMParameters.llamapun_normalization.stem_words_full)
    ∧ (DNMParameters.default.convert_to_lowercase
      = DNMParameters.llamapun_normalization.convert_to_lowercase)
    ∧ (DNMParameters.default.support_back_mapping
      = DNMParameters.llamapun_normalization.support_back_mapping)
    ∧ DNMParameters.default.check
      = DNMParameters.llamapun_normalization.check :=
  ⟨rfl, rfl, rfl, rfl,
   check_depends_only_on_four_flags DNMParameters.default
     DNMParameters.llamapun_normalization rfl rfl rfl rfl⟩

end Llamapun
